import Mathlib

/-
Verification of the staffing-optimization formulation layer.

The development shallowly embeds the repository's Python source
(src/staffing_optimization/project.py and entities/) in Lean:

* `Employee`, `Job`, `ProblemData` — the domain entities;
* `get_profit` — the profit calculator (project.py lines 52-55);
* the constraint blocks that `solve_problem` (project.py lines 58-346)
  submits to the solver, as predicates on a candidate solution;
* the file-selection logic of `get_data` (lines 16-24), with the file
  system abstracted as an oracle;
* the solution interpreter of `solve_problem` (lines 315-343), char-level
  name parsing included.

Python integers are embedded as `Int`; gurobipy binary variables are
`Int`-valued with explicit 0/1 conditions; solver-reported floating-point
values are embedded as `Rat` (the interpreter only compares them for
exact equality with 1, which is faithful over any exact numeric type).
-/

/-- Embeds entities/employee.py: name, qualification labels, vacation days
(Python ints, hence `Int`). -/
structure Employee where
  name : String
  qualifications : List String
  vacations : List Int
deriving Repr, DecidableEq

/-- Embeds entities/job.py: name, gain, due date, daily penalty and the
qualification-to-required-days mapping (a Python dict, embedded as an
association list). -/
structure Job where
  name : String
  gain : Int
  due_date : Int
  daily_penalty : Int
  working_days_per_qualification : List (String × Int)
deriving Repr, DecidableEq

/-- Embeds the ProblemData TypedDict of project.py lines 9-13. -/
structure ProblemData where
  horizon : Nat
  qualifications : List String
  staff : List Employee
  jobs : List Job
deriving Repr, DecidableEq

/-- Python dict lookup with default: job.working_days_per_qualification.get(q, 0)
as used at project.py lines 242 and 299. -/
def wdq (job : Job) (q : String) : Int :=
  match job.working_days_per_qualification.lookup q with
  | some n => n
  | none => 0

/-- Embeds get_profit (project.py lines 52-55):
if project.due_date >= end_date return project.gain, else
max(project.gain - project.daily_penalty * (end_date - project.due_date), 0). -/
def get_profit (project : Job) (end_date : Int) : Int :=
  if project.due_date ≥ end_date then project.gain
  else max (project.gain - project.daily_penalty * (end_date - project.due_date)) 0

/-- The concrete job of the spec's scenario: gain 50, due date 3,
daily penalty 20. -/
def scenarioJob : Job :=
  { name := ("jobScenario")
    gain := 50
    due_date := 3
    daily_penalty := 20
    working_days_per_qualification := [] }

/-- A job with daily_penalty -1: nothing in the code or the input pipeline
rules out a negative penalty. -/
def negPenaltyJob : Job :=
  { name := ("jobNegPenalty")
    gain := 0
    due_date := 0
    daily_penalty := -1
    working_days_per_qualification := [] }

/-- A job with gain -1: nothing in the code or the input pipeline rules out
a negative gain. -/
def negGainJob : Job :=
  { name := ("jobNegGain")
    gain := -1
    due_date := 0
    daily_penalty := 0
    working_days_per_qualification := [] }

/-- C3: get_profit returns the gain when the completion day is at most the
due date, and otherwise max(gain - daily_penalty * (completion_day - due_date), 0);
at gain 50, due date 3, daily penalty 20, completion day 5 it returns 10. -/
theorem get_profit_cases :
    (∀ (job : Job) (d : Int), d ≤ job.due_date → get_profit job d = job.gain) ∧
    (∀ (job : Job) (d : Int), job.due_date < d →
      get_profit job d =
        max (job.gain - job.daily_penalty * (d - job.due_date)) 0) ∧
    get_profit scenarioJob 5 = 10 := by
  refine ⟨fun job d h => ?_, fun job d h => ?_, by decide⟩
  · simp only [get_profit, ge_iff_le, if_pos h]
  · simp only [get_profit, ge_iff_le, if_neg (not_le.mpr h)]

/-- Witness for C3 at the spec's concrete scenario. -/
theorem get_profit_cases_witness :
    get_profit scenarioJob 3 = scenarioJob.gain ∧
    get_profit scenarioJob 5 =
      max (scenarioJob.gain - scenarioJob.daily_penalty * (5 - scenarioJob.due_date)) 0 :=
  ⟨get_profit_cases.1 scenarioJob 3 (by decide),
   get_profit_cases.2.1 scenarioJob 5 (by decide)⟩

/-- C6 counterexample: for the job with gain 0, due date 0, daily penalty -1,
the profit strictly increases from completion day due_date + 0 to
due_date + 1, so get_profit is not monotonically non-increasing in the
delay for every job. -/
theorem get_profit_not_monotone :
    get_profit negPenaltyJob (negPenaltyJob.due_date + (0 : Nat)) <
      get_profit negPenaltyJob (negPenaltyJob.due_date + (1 : Nat)) := by
  decide

/-- C6 amended: for every job with non-negative gain and non-negative daily
penalty, get_profit at the due date equals the gain, at due date + k equals
max(gain - daily_penalty * k, 0), is monotonically non-increasing in k, and
is non-negative at every delayed completion day. -/
theorem get_profit_monotone_of_nonneg :
    ∀ (job : Job), 0 ≤ job.gain → 0 ≤ job.daily_penalty →
      get_profit job job.due_date = job.gain ∧
      (∀ k : Nat, get_profit job (job.due_date + k) =
        max (job.gain - job.daily_penalty * k) 0) ∧
      (∀ k k' : Nat, k ≤ k' →
        get_profit job (job.due_date + (k' : Int)) ≤
          get_profit job (job.due_date + (k : Int))) ∧
      (∀ k : Nat, 0 ≤ get_profit job (job.due_date + (k : Int))) := by
  intro job hg hp
  have hbase : ∀ k : Nat, get_profit job (job.due_date + (k : Int)) =
      max (job.gain - job.daily_penalty * k) 0 := by
    intro k
    cases k with
    | zero =>
      simp only [get_profit, Nat.cast_zero, add_zero, ge_iff_le, le_refl, if_pos,
        mul_zero, sub_zero]
      exact (max_eq_left hg).symm
    | succ n =>
      have hlt : ¬ job.due_date ≥ job.due_date + ((n + 1 : Nat) : Int) := by
        push_cast
        omega
      simp only [get_profit, ge_iff_le] at hlt ⊢
      rw [if_neg hlt]
      congr 1
      ring_nf
  refine ⟨?_, hbase, ?_, ?_⟩
  · simp only [get_profit, ge_iff_le, le_refl, if_pos]
  · intro k k' hkk
    rw [hbase k, hbase k']
    have hmul : job.daily_penalty * (k : Int) ≤ job.daily_penalty * (k' : Int) :=
      mul_le_mul_of_nonneg_left (by exact_mod_cast hkk) hp
    exact max_le_max (by omega) le_rfl
  · intro k
    rw [hbase k]
    exact le_max_right _ _

/-- Witness for C6 amended at the scenario job: profit five days past the
due date does not exceed profit two days past it. -/
theorem get_profit_monotone_of_nonneg_witness :
    get_profit scenarioJob (scenarioJob.due_date + ((5 : Nat) : Int)) ≤
      get_profit scenarioJob (scenarioJob.due_date + ((2 : Nat) : Int)) :=
  ((get_profit_monotone_of_nonneg scenarioJob (by decide) (by decide)).2.2.1)
    2 5 (by decide)

/-- C7 counterexample: for the job with gain -1 (due date 0, daily penalty 0)
get_profit at completion day 0 returns -1, a negative value. -/
theorem get_profit_negative :
    get_profit negGainJob 0 < 0 := by
  decide

/-- C7 amended: for every job with non-negative gain and every completion day,
get_profit returns a non-negative integer. -/
theorem get_profit_nonneg :
    ∀ (job : Job) (d : Int), 0 ≤ job.gain → 0 ≤ get_profit job d := by
  intro job d hg
  unfold get_profit
  split
  · exact hg
  · exact le_max_right _ _

/-- Witness for C7 amended at the scenario job on a very late day. -/
theorem get_profit_nonneg_witness :
    0 ≤ get_profit scenarioJob 100 :=
  get_profit_nonneg scenarioJob 100 (by decide)

/-- Default employee for positional list access (only used under bounds that
make the default unreachable). -/
def defaultEmployee : Employee :=
  { name := (""), qualifications := [], vacations := [] }

/-- Default job for positional list access (only used under bounds that make
the default unreachable). -/
def defaultJob : Job :=
  { name := (""), gain := 0, due_date := 0, daily_penalty := 0,
    working_days_per_qualification := [] }

/-- A candidate point for the decision variables of solve_problem:
X e j d, Y e j q, Z j d (project.py lines 73-94), Int-valued; the 0/1
restriction from vtype BINARY is the separate predicate `binaryVars`. -/
structure Solution where
  X : Nat → Nat → Nat → Int
  Y : Nat → Nat → Nat → Int
  Z : Nat → Nat → Int

/-- The vtype gurobipy.GRB.BINARY declarations of X, Y, Z
(project.py lines 73-94): every variable of the model takes value 0 or 1. -/
def binaryVars (p : ProblemData) (s : Solution) : Prop :=
  (∀ e < p.staff.length, ∀ j < p.jobs.length, ∀ d < p.horizon,
    s.X e j d = 0 ∨ s.X e j d = 1) ∧
  (∀ e < p.staff.length, ∀ j < p.jobs.length, ∀ q < p.qualifications.length,
    s.Y e j q = 0 ∨ s.Y e j q = 1) ∧
  (∀ j < p.jobs.length, ∀ d < p.horizon, s.Z j d = 0 ∨ s.Z j d = 1)

/-- Constraint block 1 (project.py lines 158-167): Y[e,j,q] == 0 whenever
qualification q is not among employee e's qualifications. -/
def constr1 (p : ProblemData) (s : Solution) : Prop :=
  ∀ e < p.staff.length, ∀ j < p.jobs.length, ∀ q < p.qualifications.length,
    p.qualifications.getD q ("") ∉ (p.staff.getD e defaultEmployee).qualifications →
      s.Y e j q = 0

/-- Constraint block 2 (project.py lines 171-182): at most one qualification
per employee per job. -/
def constr2 (p : ProblemData) (s : Solution) : Prop :=
  ∀ e < p.staff.length, ∀ j < p.jobs.length,
    (∑ q in Finset.range p.qualifications.length, s.Y e j q) ≤ 1

/-- Constraint block 3 (project.py lines 186-197): at most one job per
employee per day. -/
def constr3 (p : ProblemData) (s : Solution) : Prop :=
  ∀ e < p.staff.length, ∀ d < p.horizon,
    (∑ j in Finset.range p.jobs.length, s.X e j d) ≤ 1

/-- Constraint blocks 4 (project.py lines 201-209 and its duplicate 213-221):
X[e,j,day] == 0 for every day in employee e's vacations. The guards 0 ≤ d
and d < horizon record that the tupledict X only has keys for days in
[0, horizon): a vacation day outside that range makes the lookup raise
before any constraint is created (see `vacationConstraintBuild`). -/
def constr4 (p : ProblemData) (s : Solution) : Prop :=
  ∀ e < p.staff.length, ∀ j < p.jobs.length,
    ∀ d ∈ (p.staff.getD e defaultEmployee).vacations,
      0 ≤ d → d < (p.horizon : Int) → s.X e j d.toNat = 0

/-- Cumulative qualified employee-days for job j and qualification q through
day d: quicksum(Y[e,j,q] * X[e,j,d2] for e in staff for d2 in range(day+1))
(project.py lines 236-241). -/
def cumulativeQualifiedWork (p : ProblemData) (s : Solution)
    (j q d : Nat) : Int :=
  ∑ e in Finset.range p.staff.length,
    ∑ d2 in Finset.range (d + 1), s.Y e j q * s.X e j d2

/-- Constraint block 5 as the generator at project.py lines 231-259 actually
produces it. The body is the Python conditional expression
  (Z[j,day] == 1) if <gurobipy expression object> else 0:
its condition is a gurobipy expression object evaluated for truth at
model-build time, before any variable has a value, so per (j, day) the
generator yields either the unconditional constraint Z[j,day] == 1 or the
bare integer 0 (no constraint on the variables). The build-time truth
outcome is the parameter ct. The comment above the block in the source
states: TODO: The code below doesn't work. -/
def block5Actual (ct : Nat → Nat → Bool) (p : ProblemData) (s : Solution) : Prop :=
  ∀ j < p.jobs.length, ∀ d < p.horizon, ct j d = true → s.Z j d = 1

/-- Modelled from the spec (the completion-trigger sentence): Z[j,d] = 1 iff
cumulatively through day d every qualification q has accumulated exactly
job.working_days_per_qualification[q] qualified employee-days and at least
one employee works job j on day d itself, else Z[j,d] = 0. Stated for
comparison with `block5Actual`; it is not what the source builds. -/
def block5Claimed (p : ProblemData) (s : Solution) : Prop :=
  ∀ j < p.jobs.length, ∀ d < p.horizon,
    s.Z j d =
      if ((∀ q < p.qualifications.length,
            cumulativeQualifiedWork p s j q d =
              wdq (p.jobs.getD j defaultJob) (p.qualifications.getD q (""))) ∧
          1 ≤ ∑ e in Finset.range p.staff.length, s.X e j d)
      then 1 else 0

/-- Constraint block 6 (project.py lines 262-269): each job is realized
exactly once: sum over the horizon of Z[j,day] == 1. -/
def constr6 (p : ProblemData) (s : Solution) : Prop :=
  ∀ j < p.jobs.length,
    (∑ d in Finset.range p.horizon, s.Z j d) = 1

/-- Constraint block 7 (project.py lines 275-286): an employee assigned to a
job for a qualification works that job at least one day. -/
def constr7 (p : ProblemData) (s : Solution) : Prop :=
  ∀ e < p.staff.length, ∀ j < p.jobs.length, ∀ q < p.qualifications.length,
    s.Y e j q ≤ ∑ d in Finset.range p.horizon, s.X e j d

/-- Constraint block 8 (project.py lines 291-304): staffed qualified days for
(j, q), summed over all employees and days, at most the job's requirement. -/
def constr8 (p : ProblemData) (s : Solution) : Prop :=
  ∀ j < p.jobs.length, ∀ q < p.qualifications.length,
    (∑ e in Finset.range p.staff.length,
      ∑ d in Finset.range p.horizon, s.X e j d * s.Y e j q) ≤
      wdq (p.jobs.getD j defaultJob) (p.qualifications.getD q (""))

/-- A point satisfies the model solve_problem builds: the binary variable
declarations and every addConstrs block, with block 5 in its actual
build-time-conditional form (parameter ct). -/
def feasible (ct : Nat → Nat → Bool) (p : ProblemData) (s : Solution) : Prop :=
  binaryVars p s ∧ constr1 p s ∧ constr2 p s ∧ constr3 p s ∧ constr4 p s ∧
    block5Actual ct p s ∧ constr6 p s ∧ constr7 p s ∧ constr8 p s

/-- A minimal concrete instance: one employee holding qualification A, one
job requiring one day of A, horizon 1, no vacations. -/
def p1 : ProblemData :=
  { horizon := 1
    qualifications := [("A")]
    staff := [{ name := ("e0"), qualifications := [("A")], vacations := [] }]
    jobs := [{ name := ("j0"), gain := 50, due_date := 3, daily_penalty := 20,
               working_days_per_qualification := [(("A"), 1)] }] }

/-- Like p1 but the employee is on vacation on day 0. -/
def p2 : ProblemData :=
  { horizon := 1
    qualifications := [("A")]
    staff := [{ name := ("e0"), qualifications := [("A")], vacations := [0] }]
    jobs := [{ name := ("j0"), gain := 50, due_date := 3, daily_penalty := 20,
               working_days_per_qualification := [(("A"), 1)] }] }

/-- The candidate point with no work and no qualification roles in which the
single job is nonetheless marked finished on day 0. -/
def sIdle : Solution :=
  { X := fun _ _ _ => 0
    Y := fun _ _ _ => 0
    Z := fun _ _ => 1 }

/-- C1: the block the source generates at lines 231-259 is not the
completion-trigger constraint the claim states. On instance p1, the point
sIdle (nobody ever works, zero accumulated qualified days, yet Z[0,0] = 1)
satisfies the generated block for every possible build-time truth outcome ct
of the gurobipy condition object, while the claimed iff-constraint rejects
it: the generated conditional is fixed at build time and cannot express the
solution-dependent iff. -/
theorem completion_block_diverges_from_claim :
    (∀ ct : Nat → Nat → Bool, block5Actual ct p1 sIdle) ∧
      ¬ block5Claimed p1 sIdle := by
  constructor
  · intro ct j hj d hd hct
    rfl
  · intro h
    have h00 := h 0 (by decide) 0 (by decide)
    revert h00
    decide

/-- C2: every point feasible for the model satisfies, for every job index,
that the sum of Z[j, d] over the horizon equals exactly 1. -/
theorem single_completion_constraint :
    ∀ (ct : Nat → Nat → Bool) (p : ProblemData) (s : Solution),
      feasible ct p s → ∀ j < p.jobs.length,
        (∑ d in Finset.range p.horizon, s.Z j d) = 1 := by
  intro ct p s hf j hj
  exact hf.2.2.2.2.2.2.1 j hj

/-- Witness for C2: on instance p1 the point sIdle is feasible (for the
build-time outcome that always adds Z == 1) and its completion variables for
job 0 sum to 1 over the horizon. -/
theorem single_completion_constraint_witness :
    (∑ d in Finset.range p1.horizon, sIdle.Z 0 d) = 1 :=
  single_completion_constraint (fun _ _ => true) p1 sIdle
    (by
      unfold feasible binaryVars constr1 constr2 constr3 constr4 block5Actual
        constr6 constr7 constr8
      exact ⟨⟨by decide, by decide, by decide⟩,
        by intro e he j hj q hq hmem; rfl, by decide, by decide,
        by decide, by decide, by decide, by decide, by decide⟩)
    0 (by decide)

/-- C5: every point feasible for the model has X[e, j, d] = 0 for every day d
in employee e's vacation list (for the days in [0, horizon), the only days
for which assignment variables exist). -/
theorem vacation_exclusion :
    ∀ (ct : Nat → Nat → Bool) (p : ProblemData) (s : Solution),
      feasible ct p s →
        ∀ e < p.staff.length, ∀ j < p.jobs.length,
          ∀ d ∈ (p.staff.getD e defaultEmployee).vacations,
            0 ≤ d → d < (p.horizon : Int) → s.X e j d.toNat = 0 := by
  intro ct p s hf e he j hj d hd h0 hh
  exact hf.2.2.2.2.1 e he j hj d hd h0 hh

/-- Witness for C5: on instance p2 (vacation on day 0) the point sIdle is
feasible and its assignment variable X[0,0,0] is 0. -/
theorem vacation_exclusion_witness :
    sIdle.X 0 0 ((0 : Int)).toNat = 0 :=
  vacation_exclusion (fun _ _ => true) p2 sIdle
    (by
      unfold feasible binaryVars constr1 constr2 constr3 constr4 block5Actual
        constr6 constr7 constr8
      exact ⟨⟨by decide, by decide, by decide⟩,
        by intro e he j hj q hq hmem; rfl, by decide, by decide,
        by decide, by decide, by decide, by decide, by decide⟩)
    0 (by decide) 0 (by decide) 0 (by decide) (by decide) (by decide)

/-- Python single-character access v.varName[i], over the string's character
list. The names inspected by the interpreter are always long enough for the
positions it reads, so the default is never reached in the facts proved
below. -/
def charAt (s : String) (i : Nat) : Char :=
  s.data.getD i (' ')

/-- Python int() applied to a one-character string: the digit's value when
the character is a decimal digit, failure (a ValueError) otherwise. -/
def digitVal (c : Char) : Option Nat :=
  if c.isDigit then some (c.toNat - 48) else none

/-- The name gurobipy gives a variable of a three-index family created by
addVars with the given name prefix: the prefix followed by the bracketed,
comma-separated indices, e.g. X[0,1,2]. -/
def varName3 (pre : String) (a b c : Nat) : String :=
  pre ++ ("[") ++ Nat.repr a ++ (",") ++ Nat.repr b ++ (",") ++ Nat.repr c ++ ("]")

/-- The name gurobipy gives a variable of a two-index family, e.g. Z[3,4]. -/
def varName2 (pre : String) (a b : Nat) : String :=
  pre ++ ("[") ++ Nat.repr a ++ (",") ++ Nat.repr b ++ ("]")

/-- The index recovery int(v.varName[2]), int(v.varName[4]), int(v.varName[6])
performed for X and Y variables (project.py lines 319-336). -/
def parse3 (s : String) : Option (Nat × Nat × Nat) :=
  match digitVal (charAt s 2), digitVal (charAt s 4), digitVal (charAt s 6) with
  | some a, some b, some c => some (a, b, c)
  | _, _, _ => none

/-- The index recovery int(v.varName[2]), int(v.varName[4]) performed for
Z variables (project.py lines 337-343). -/
def parse2 (s : String) : Option (Nat × Nat) :=
  match digitVal (charAt s 2), digitVal (charAt s 4) with
  | some a, some b => some (a, b)
  | _, _ => none

/-- A domain-level fact the solution interpreter reports. -/
inductive DomainFact where
  | works (employee job : String) (day : Nat)
  | assignedFor (employee job qualification : String)
  | finishedOn (job : String) (day : Nat)
deriving Repr, DecidableEq

deriving instance DecidableEq for Except

/-- Embeds the per-variable body of the solution-interpretation loop
(project.py lines 317-343): a variable is considered only when its solved
value compares equal to 1 (v.x == 1); the first character of its name
selects the family, single characters at positions 2, 4, 6 are parsed as
the indices, and the entity names are looked up positionally. A failed
int() (error ()) models the ValueError Python raises on a non-digit
character; a failed positional lookup models an IndexError. -/
def interpretVar (p : ProblemData) (name : String) (x : Rat) :
    Except Unit (Option DomainFact) :=
  if x = 1 then
    if charAt name 0 = 'X' then
      match parse3 name with
      | some (e, j, d) =>
        match p.staff.get? e, p.jobs.get? j with
        | some emp, some job => .ok (some (.works emp.name job.name d))
        | _, _ => .error ()
      | none => .error ()
    else if charAt name 0 = 'Y' then
      match parse3 name with
      | some (e, j, q) =>
        match p.staff.get? e, p.jobs.get? j, p.qualifications.get? q with
        | some emp, some job, some qual =>
          .ok (some (.assignedFor emp.name job.name qual))
        | _, _, _ => .error ()
      | none => .error ()
    else if charAt name 0 = 'Z' then
      match parse2 name with
      | some (j, d) =>
        match p.jobs.get? j with
        | some job => .ok (some (.finishedOn job.name d))
        | none => .error ()
      | none => .error ()
    else .ok none
  else .ok none

/-- C4 counterexample: the solved value 999999/1000000 lies within the small
tolerance 1/1000000 of 1.0, yet the interpreter reports no fact for the
corresponding variable, while for the exact value 1 it reports the fact:
the code compares with exact equality, not within a tolerance. -/
theorem interpreter_no_tolerance :
    interpretVar p1 (varName3 ("X") 0 0 0) ((999999 : Rat) / 1000000) = .ok none ∧
    (1 : Rat) - (999999 : Rat) / 1000000 ≤ (1 : Rat) / 1000000 ∧
    interpretVar p1 (varName3 ("X") 0 0 0) 1 =
      .ok (some (.works ("e0") ("j0") 0)) := by
  refine ⟨?_, by norm_num, by decide⟩
  unfold interpretVar
  rw [if_neg (by norm_num)]

/-- C4 amended: the interpreter treats a solved variable value as 1 exactly
when it equals 1; every other value, however close to 1.0, yields no
reported fact. -/
theorem interpreter_exact_equality :
    ∀ (p : ProblemData) (name : String) (x : Rat),
      x ≠ 1 → interpretVar p name x = .ok none := by
  intro p name x hx
  unfold interpretVar
  rw [if_neg hx]

/-- Witness for C4 amended: the value 1/2 yields no reported fact. -/
theorem interpreter_exact_equality_witness :
    interpretVar p1 (varName3 ("X") 0 0 0) ((1 : Rat) / 2) = .ok none :=
  interpreter_exact_equality p1 (varName3 ("X") 0 0 0) ((1 : Rat) / 2) (by norm_num)

/-- Exhaustive single-digit check that the fixed-position parse of an
X-variable name recovers the three indices. -/
def parse3XTable : Bool :=
  (List.range 10).all fun a =>
    (List.range 10).all fun b =>
      (List.range 10).all fun c =>
        parse3 (varName3 ("X") a b c) == some (a, b, c)

/-- For single-digit indices the fixed-position parse of an X-variable name
recovers the three indices exactly. -/
theorem parse3_varName3_X :
    ∀ a < 10, ∀ b < 10, ∀ c < 10,
      parse3 (varName3 ("X") a b c) = some (a, b, c) := by
  intro a ha b hb c hc
  have h : parse3XTable = true := by decide
  unfold parse3XTable at h
  rw [List.all_eq_true] at h
  have h1 := h a (List.mem_range.mpr ha)
  rw [List.all_eq_true] at h1
  have h2 := h1 b (List.mem_range.mpr hb)
  rw [List.all_eq_true] at h2
  have h3 := h2 c (List.mem_range.mpr hc)
  exact eq_of_beq h3

/-- The first character of an X-variable name is X. -/
theorem charAt_varName3_X (a b c : Nat) :
    charAt (varName3 ("X") a b c) 0 = 'X' := by
  simp [charAt, varName3, String.data_append]

/-- Exhaustive single-digit check for Y-variable names. -/
def parse3YTable : Bool :=
  (List.range 10).all fun a =>
    (List.range 10).all fun b =>
      (List.range 10).all fun c =>
        parse3 (varName3 ("Y") a b c) == some (a, b, c)

/-- For single-digit indices the fixed-position parse of a Y-variable name
recovers the three indices exactly. -/
theorem parse3_varName3_Y :
    ∀ a < 10, ∀ b < 10, ∀ c < 10,
      parse3 (varName3 ("Y") a b c) = some (a, b, c) := by
  intro a ha b hb c hc
  have h : parse3YTable = true := by decide
  unfold parse3YTable at h
  rw [List.all_eq_true] at h
  have h1 := h a (List.mem_range.mpr ha)
  rw [List.all_eq_true] at h1
  have h2 := h1 b (List.mem_range.mpr hb)
  rw [List.all_eq_true] at h2
  have h3 := h2 c (List.mem_range.mpr hc)
  exact eq_of_beq h3

/-- Exhaustive single-digit check for Z-variable names. -/
def parse2ZTable : Bool :=
  (List.range 10).all fun a =>
    (List.range 10).all fun b =>
      parse2 (varName2 ("Z") a b) == some (a, b)

/-- For single-digit indices the fixed-position parse of a Z-variable name
recovers the two indices exactly. -/
theorem parse2_varName2_Z :
    ∀ a < 10, ∀ b < 10, parse2 (varName2 ("Z") a b) = some (a, b) := by
  intro a ha b hb
  have h : parse2ZTable = true := by decide
  unfold parse2ZTable at h
  rw [List.all_eq_true] at h
  have h1 := h a (List.mem_range.mpr ha)
  rw [List.all_eq_true] at h1
  have h2 := h1 b (List.mem_range.mpr hb)
  exact eq_of_beq h2

/-- The first character of a Y-variable name is Y. -/
theorem charAt_varName3_Y (a b c : Nat) :
    charAt (varName3 ("Y") a b c) 0 = 'Y' := by
  simp [charAt, varName3, String.data_append]

/-- The first character of a Z-variable name is Z. -/
theorem charAt_varName2_Z (a b : Nat) :
    charAt (varName2 ("Z") a b) 0 = 'Z' := by
  simp [charAt, varName2, String.data_append]

/-- C9: the interpreter recovers indices by reading single characters at
fixed name positions. For every instance and all indices at most 9 (and in
range), the facts reported for X[e,j,d], Y[e,j,q] and Z[j,d] at value 1
carry exactly those indices; but for the variable X[0,0,10] of a 10-day
instance the parse reports day 1 instead of 10, and for X[10,0,0] int()
hits a non-digit character and raises. -/
theorem interpreter_name_positions :
    (∀ (p : ProblemData) (e j d : Nat), e ≤ 9 → j ≤ 9 → d ≤ 9 →
      ∀ (he : e < p.staff.length) (hj : j < p.jobs.length),
        interpretVar p (varName3 ("X") e j d) 1 =
          .ok (some (.works (p.staff.get ⟨e, he⟩).name
            (p.jobs.get ⟨j, hj⟩).name d))) ∧
    (∀ (p : ProblemData) (e j q : Nat), e ≤ 9 → j ≤ 9 → q ≤ 9 →
      ∀ (he : e < p.staff.length) (hj : j < p.jobs.length)
        (hq : q < p.qualifications.length),
        interpretVar p (varName3 ("Y") e j q) 1 =
          .ok (some (.assignedFor (p.staff.get ⟨e, he⟩).name
            (p.jobs.get ⟨j, hj⟩).name (p.qualifications.get ⟨q, hq⟩)))) ∧
    (∀ (p : ProblemData) (j d : Nat), j ≤ 9 → d ≤ 9 →
      ∀ (hj : j < p.jobs.length),
        interpretVar p (varName2 ("Z") j d) 1 =
          .ok (some (.finishedOn (p.jobs.get ⟨j, hj⟩).name d))) ∧
    interpretVar p1 (varName3 ("X") 0 0 10) 1 =
      .ok (some (.works ("e0") ("j0") 1)) ∧
    interpretVar p1 (varName3 ("X") 10 0 0) 1 = .error () := by
  refine ⟨?_, ?_, ?_, by decide, by decide⟩
  · intro p e j d he9 hj9 hd9 he hj
    have hp3 : parse3 (varName3 ("X") e j d) = some (e, j, d) :=
      parse3_varName3_X e (by omega) j (by omega) d (by omega)
    unfold interpretVar
    rw [if_pos rfl, if_pos (charAt_varName3_X e j d), hp3]
    simp only [List.get?_eq_get he, List.get?_eq_get hj]
  · intro p e j q he9 hj9 hq9 he hj hq
    have hp3 : parse3 (varName3 ("Y") e j q) = some (e, j, q) :=
      parse3_varName3_Y e (by omega) j (by omega) q (by omega)
    have hy := charAt_varName3_Y e j q
    unfold interpretVar
    rw [if_pos rfl, if_neg (by rw [hy]; decide), if_pos hy, hp3]
    simp only [List.get?_eq_get he, List.get?_eq_get hj, List.get?_eq_get hq]
  · intro p j d hj9 hd9 hj
    have hp2 : parse2 (varName2 ("Z") j d) = some (j, d) :=
      parse2_varName2_Z j (by omega) d (by omega)
    have hz := charAt_varName2_Z j d
    unfold interpretVar
    rw [if_pos rfl, if_neg (by rw [hz]; decide), if_neg (by rw [hz]; decide),
      if_pos hz, hp2]
    simp only [List.get?_eq_get hj]

/-- Witness for C9 at the all-zero indices of instance p1. -/
theorem interpreter_name_positions_witness :
    interpretVar p1 (varName3 ("X") 0 0 0) 1 =
      .ok (some (.works ("e0") ("j0") 0)) :=
  interpreter_name_positions.1 p1 0 0 0 (by decide) (by decide) (by decide)
    (by decide) (by decide)

/-- Modelled file read of get_data (project.py lines 26-27): the file system
is the oracle fs; a missing file is a read error. -/
def readInstanceFile (fs : String → Option ProblemData) (file : String) :
    Except String ProblemData :=
  match fs file with
  | some d => .ok d
  | none => .error (("Cannot read ") ++ file)

/-- Embeds the selector logic of get_data (project.py lines 16-24): the three
known size selectors choose a data file; any other selector raises
ValueError naming the unknown size before any file is touched. -/
def get_data (fs : String → Option ProblemData) (size : String) :
    Except String ProblemData :=
  if size = ("small") then readInstanceFile fs ("data/toy_instance.json")
  else if size = ("medium") then readInstanceFile fs ("data/medium_instance.json")
  else if size = ("large") then readInstanceFile fs ("data/large_instance.json")
  else .error (("Unknown size ") ++ size)

/-- C8: for every selector other than small, medium, large, get_data fails
with the configuration error naming the unknown size, for every state of
the file system: no file is read and no entity is constructed. -/
theorem get_data_unknown_size :
    ∀ (size : String), size ≠ ("small") → size ≠ ("medium") → size ≠ ("large") →
      ∀ fs : String → Option ProblemData,
        get_data fs size = .error (("Unknown size ") ++ size) := by
  intro size h1 h2 h3 fs
  unfold get_data
  rw [if_neg h1, if_neg h2, if_neg h3]

/-- Witness for C8 with the selector tiny on an empty file system. -/
theorem get_data_unknown_size_witness :
    get_data (fun _ => none) ("tiny") = .error (("Unknown size ") ++ ("tiny")) :=
  get_data_unknown_size ("tiny") (by decide) (by decide) (by decide)
    (fun _ => none)

/-- Whether every tupledict lookup X[e, j, day] performed while generating
the vacation-exclusion constraints (project.py lines 201-221) succeeds. The
generator ranges over every employee, every job, and every vacation day of
the employee; X has keys only for days in [0, horizon). With no jobs the
generator body never runs, so no lookup happens at all. -/
def vacationLookupOk (p : ProblemData) : Bool :=
  p.jobs.isEmpty ||
    p.staff.all fun e =>
      e.vacations.all fun d => decide (0 ≤ d ∧ d < (p.horizon : Int))

/-- Outcome of generating the vacation-exclusion block: either the block is
built and solve_problem proceeds, or a KeyError aborts solve_problem at
lines 201-221, before model.optimize at line 313 is ever reached. -/
inductive VacationBuild where
  | built
  | keyError
deriving Repr, DecidableEq

/-- The vacation-exclusion constraint generation as a step of solve_problem:
it aborts with a KeyError exactly when some performed lookup uses a day
that is not a key of X. -/
def vacationConstraintBuild (p : ProblemData) : VacationBuild :=
  if vacationLookupOk p then .built else .keyError

/-- An instance with no jobs whose single employee has vacation day 5,
outside the horizon [0, 1). -/
def pNoJobs : ProblemData :=
  { horizon := 1
    qualifications := [("A")]
    staff := [{ name := ("e0"), qualifications := [("A")], vacations := [5] }]
    jobs := [] }

/-- Like pNoJobs but with one job present. -/
def pBadVacation : ProblemData :=
  { horizon := 1
    qualifications := [("A")]
    staff := [{ name := ("e0"), qualifications := [("A")], vacations := [5] }]
    jobs := [{ name := ("j0"), gain := 50, due_date := 3, daily_penalty := 20,
               working_days_per_qualification := [(("A"), 1)] }] }

/-- C10 counterexample: on the instance with no jobs, the employee's
vacation list contains day 5, outside [0, horizon) = [0, 1), yet the
vacation-exclusion generation completes without any lookup error, because
the generator iterates over the (empty) job list and so performs no lookup. -/
theorem vacation_lookup_no_jobs :
    (5 : Int) ∈ (pNoJobs.staff.getD 0 defaultEmployee).vacations ∧
    ¬ ((5 : Int) < (pNoJobs.horizon : Int)) ∧
    vacationConstraintBuild pNoJobs = .built := by
  decide

/-- C10 amended: if some employee's vacation list contains a day outside
[0, horizon) and the job list is non-empty, the vacation-exclusion
generation aborts with the lookup error, so no solve is performed. -/
theorem vacation_lookup_fails :
    ∀ (p : ProblemData) (e : Employee) (d : Int),
      e ∈ p.staff → d ∈ e.vacations → ¬ (0 ≤ d ∧ d < (p.horizon : Int)) →
      p.jobs ≠ [] → vacationConstraintBuild p = .keyError := by
  intro p e d he hd hout hjobs
  have hfalse : vacationLookupOk p = false := by
    unfold vacationLookupOk
    rw [Bool.or_eq_false_iff]
    constructor
    · simpa [List.isEmpty_iff] using hjobs
    · rw [← Bool.not_eq_true, List.all_eq_true]
      intro hall
      have h1 := hall e he
      rw [List.all_eq_true] at h1
      have h2 := h1 d hd
      rw [decide_eq_true_iff] at h2
      exact hout h2
  unfold vacationConstraintBuild
  rw [hfalse]
  simp

/-- Witness for C10 amended at the concrete instance with one job and the
out-of-range vacation day 5. -/
theorem vacation_lookup_fails_witness :
    vacationConstraintBuild pBadVacation = .keyError :=
  vacation_lookup_fails pBadVacation
    (pBadVacation.staff.getD 0 defaultEmployee) 5
    (by decide) (by decide) (by decide) (by decide)
